import Mathlib

/-!
# Verification of the blobxfer Azure blob operations layer

Shallow embedding of `blobxfer/operations/azure/blob/{__init__,block,append,page}.py`.

Remote side effects are modelled explicitly: every function that issues a network
call returns a record describing the call it issues (or `none` / a distinguished
constructor when no call is issued), and functions whose behaviour depends on a
remote response take that response as an explicit input
(`FetchOutcome`, `CreateContainerOutcome`).  Python byte strings are modelled as
`List Nat`, Python `None` as `Option`.
-/

namespace Blobxfer

/-- Storage modes, from `blobxfer.models.azure.StorageModes`. -/
inductive StorageModes where
  | Block
  | Append
  | Page
  | File
  | Auto
deriving DecidableEq

/-- Remote blob types, from `azure.storage.blob._models.BlobType`
(string values `BlockBlob`, `AppendBlob`, `PageBlob`). -/
inductive BlobType where
  | BlockBlob
  | AppendBlob
  | PageBlob
deriving DecidableEq

/-- Python `'{}'.format(mode)` of a `StorageModes` enum member. -/
def modeStr : StorageModes → String
  | .Block => "StorageModes.Block"
  | .Append => "StorageModes.Append"
  | .Page => "StorageModes.Page"
  | .File => "StorageModes.File"
  | .Auto => "StorageModes.Auto"

/-- Python `'{}'.format(blob_type)` of a blob type (a `str`-valued enum). -/
def blobTypeStr : BlobType → String
  | .BlockBlob => "BlockBlob"
  | .AppendBlob => "AppendBlob"
  | .PageBlob => "PageBlob"

/-- Blob properties as received from a listing or property fetch: the fields
this layer inspects (`name`, `blob_type`). -/
structure BlobProps where
  name : String
  blob_type : BlobType
deriving DecidableEq

/-- The slice of the storage client object this layer reads
(`ase.client.account_name`, `.account_key`, `.sas_token`, `.primary_endpoint`). -/
structure StorageClient where
  account_name : String
  account_key : Option String
  sas_token : String
  primary_endpoint : String
deriving DecidableEq

/-- `blobxfer.models.azure.StorageEntity`: the fields read by the operations
under `blobxfer/operations/azure/blob/`. -/
structure StorageEntity where
  client : StorageClient
  container : String
  name : String
  size : Nat
  mode : StorageModes
  content_type : String
  cache_control : String
  can_create_containers : Bool
  is_arbitrary_url : Bool
  path : String
deriving DecidableEq

/-- `blobxfer.models.upload.Offsets` / `blobxfer.models.download.Offsets`:
the fields read here (`chunk_num`, `range_start`, `range_end`). -/
structure Offsets where
  chunk_num : Nat
  range_start : Nat
  range_end : Nat
deriving DecidableEq

/-! ## Decimal digits and `_format_block_id`

`block._format_block_id(chunk_num)` is `'{0:08d}'.format(chunk_num)`: the decimal
representation of the chunk number, left padded with `'0'` to a minimum width of 8.
The digit expansion is written with explicit fuel so that it is structural and
evaluates inside the kernel. -/

/-- Most-significant-first decimal digits of `n`, with fuel. -/
def decDigitsAux (fuel n : Nat) : List Nat :=
  match fuel with
  | 0 => []
  | fuel + 1 => if n < 10 then [n] else decDigitsAux fuel (n / 10) ++ [n % 10]

/-- Most-significant-first decimal digits of `n` (the digits of Python's `str(n)`). -/
def decDigits (n : Nat) : List Nat := decDigitsAux (n + 1) n

theorem decDigitsAux_fuel_irrel :
    ∀ fuel fuel' n, n < fuel → n < fuel' → decDigitsAux fuel n = decDigitsAux fuel' n := by
  intro fuel
  induction fuel with
  | zero => intro fuel' n h; omega
  | succ f ih =>
    intro fuel' n h h'
    cases fuel' with
    | zero => omega
    | succ f' =>
      simp only [decDigitsAux]
      by_cases h10 : n < 10
      · simp [h10]
      · simp only [h10, if_false]
        have hd : n / 10 < n := Nat.div_lt_self (by omega) (by omega)
        rw [ih f' (n / 10) (by omega) (by omega)]

theorem decDigits_base {n : Nat} (h : n < 10) : decDigits n = [n] := by
  simp [decDigits, decDigitsAux, h]

theorem decDigits_step {n : Nat} (h : 10 ≤ n) :
    decDigits n = decDigits (n / 10) ++ [n % 10] := by
  have hd : n / 10 < n := Nat.div_lt_self (by omega) (by omega)
  have h1 : decDigits n = decDigitsAux n (n / 10) ++ [n % 10] := by
    simp only [decDigits]
    rw [decDigitsAux]
    simp [Nat.not_lt.mpr h]
  rw [h1, decDigitsAux_fuel_irrel n (n / 10 + 1) (n / 10) (by omega) (by omega)]
  rfl

theorem decDigits_ne_nil (n : Nat) : decDigits n ≠ [] := by
  by_cases h : n < 10
  · rw [decDigits_base h]
    simp
  · rw [decDigits_step (by omega)]
    simp

theorem decDigits_lt_ten (n : Nat) : ∀ d ∈ decDigits n, d < 10 := by
  induction n using Nat.strong_induction_on with
  | _ n ih =>
    by_cases h : n < 10
    · simp [decDigits_base h]
      omega
    · rw [decDigits_step (by omega)]
      intro d hd
      rcases List.mem_append.mp hd with hd | hd
      · exact ih (n / 10) (Nat.div_lt_self (by omega) (by omega)) d hd
      · simp at hd
        omega

theorem decDigits_length_le :
    ∀ k n, n < 10 ^ (k + 1) → (decDigits n).length ≤ k + 1 := by
  intro k
  induction k with
  | zero =>
    intro n h
    have h9 : n < 10 := by simpa using h
    simp [decDigits_base h9]
  | succ k ih =>
    intro n h
    by_cases h10 : n < 10
    · simp [decDigits_base h10]
    · rw [decDigits_step (by omega)]
      have hdiv : n / 10 < 10 ^ (k + 1) := by
        rw [Nat.div_lt_iff_lt_mul (by omega)]
        calc n < 10 ^ (k + 1 + 1) := h
        _ = 10 ^ (k + 1) * 10 := by ring
      have := ih (n / 10) hdiv
      simp only [List.length_append, List.length_cons, List.length_nil]
      omega

/-- Value of a most-significant-first digit list. -/
def parseDigits (ds : List Nat) : Nat := ds.foldl (fun a d => 10 * a + d) 0

theorem parseDigits_append_singleton (ds : List Nat) (d : Nat) :
    parseDigits (ds ++ [d]) = 10 * parseDigits ds + d := by
  simp [parseDigits, List.foldl_append]

theorem parseDigits_decDigits (n : Nat) : parseDigits (decDigits n) = n := by
  induction n using Nat.strong_induction_on with
  | _ n ih =>
    by_cases h : n < 10
    · simp [decDigits_base h, parseDigits]
    · rw [decDigits_step (by omega), parseDigits_append_singleton,
        ih (n / 10) (Nat.div_lt_self (by omega) (by omega))]
      omega

/-- `block._format_block_id(chunk_num)`, that is `'{0:08d}'.format(chunk_num)`:
the decimal digits of `chunk_num`, left padded with `'0'` to width 8. -/
def _format_block_id (chunk_num : Nat) : String :=
  String.mk (List.replicate (8 - (decDigits chunk_num).length) '0'
    ++ (decDigits chunk_num).map Nat.digitChar)

theorem _format_block_id_length {n : Nat} (h : n ≤ 99999999) :
    (_format_block_id n).length = 8 := by
  have hle : (decDigits n).length ≤ 8 := decDigits_length_le 7 n (by omega)
  have hpos : 0 < (decDigits n).length :=
    List.length_pos.mpr (decDigits_ne_nil n)
  simp only [_format_block_id, String.length, String.mk, List.length_append,
    List.length_replicate, List.length_map]
  omega

theorem digitChar_isDigit : ∀ d, d < 10 → (Nat.digitChar d).isDigit = true := by
  decide

theorem _format_block_id_chars_digits (n : Nat) :
    ∀ c ∈ (_format_block_id n).data, c.isDigit = true := by
  intro c hc
  simp only [_format_block_id, String.mk, List.mem_append, List.mem_replicate,
    List.mem_map] at hc
  rcases hc with ⟨_, rfl⟩ | ⟨d, hd, rfl⟩
  · decide
  · exact digitChar_isDigit d (decDigits_lt_ten n d hd)

/-- Numeric value recovered from a block id string. -/
def parseBlockID (s : String) : Nat :=
  s.data.foldl (fun a c => 10 * a + (c.toNat - 48)) 0

theorem digitChar_toNat : ∀ d, d < 10 → (Nat.digitChar d).toNat - 48 = d := by
  decide

theorem foldl_blockid_zeros (k : Nat) :
    List.foldl (fun a c => 10 * a + (c.toNat - 48)) 0 (List.replicate k '0') = 0 := by
  induction k with
  | zero => rfl
  | succ k ih => simpa [List.replicate_succ] using ih

theorem foldl_blockid_digits :
    ∀ (ds : List Nat) (a : Nat), (∀ d ∈ ds, d < 10) →
      List.foldl (fun a c => 10 * a + (c.toNat - 48)) a (ds.map Nat.digitChar) =
        ds.foldl (fun a d => 10 * a + d) a := by
  intro ds
  induction ds with
  | nil => intro a _; rfl
  | cons d ds ih =>
    intro a h
    simp only [List.map_cons, List.foldl_cons]
    rw [digitChar_toNat d (h d (List.mem_cons_self d ds))]
    exact ih _ (fun x hx => h x (List.mem_cons_of_mem d hx))

theorem parseBlockID_format (n : Nat) : parseBlockID (_format_block_id n) = n := by
  simp only [parseBlockID, _format_block_id, String.mk, List.foldl_append]
  rw [foldl_blockid_zeros, foldl_blockid_digits (decDigits n) 0 (decDigits_lt_ten n)]
  exact parseDigits_decDigits n

theorem _format_block_id_injective {m n : Nat}
    (h : _format_block_id m = _format_block_id n) : m = n := by
  have := congrArg parseBlockID h
  rwa [parseBlockID_format, parseBlockID_format] at this

/-! ## Remote interaction model

A property fetch can find the object, report not-found
(`azure.core.exceptions.ResourceNotFoundError`), or fail with any other error,
which this layer propagates. -/

/-- Outcome of a remote `get_blob_properties` fetch. -/
inductive FetchOutcome where
  | found (props : BlobProps)
  | notFound
  | otherError (e : String)
deriving DecidableEq

/-- Result of an operation that may issue one property fetch: whether the
network call was issued, and the value returned or exception raised. -/
structure RemoteResult (α : Type) where
  fetched : Bool
  outcome : Except String α

/-- Modelled from the spec: `blobxfer.util.blob_is_snapshot` is not under `src/`.
Per the spec (§6, §4.1) a snapshot reference is "a name suffixed with a
query-style snapshot timestamp parameter"; we scan for the first `?snapshot=`
marker and require a nonempty timestamp part after it. -/
def afterSnapshotMarker : List Char → Option (List Char)
  | [] => none
  | c :: t =>
    if ("?snapshot=".data).isPrefixOf (c :: t) then
      some ((c :: t).drop ("?snapshot=".data).length)
    else afterSnapshotMarker t

/-- Modelled from the spec: whether a blob path encodes a snapshot reference
(`blobxfer.util.blob_is_snapshot`, not under `src/`). -/
def blob_is_snapshot (name : String) : Bool :=
  match afterSnapshotMarker name.data with
  | some rest => !rest.isEmpty
  | none => false

/-- `blob.check_if_single_blob(client, container, prefix)`: snapshot paths are
single blobs without any fetch; otherwise one property fetch decides, with
not-found downgraded to `false` and every other error propagated. -/
def check_if_single_blob (pfx : String) (fetch : FetchOutcome) : RemoteResult Bool :=
  if blob_is_snapshot pfx then ⟨false, .ok true⟩
  else
    match fetch with
    | .notFound => ⟨true, .ok false⟩
    | .otherError e => ⟨true, .error e⟩
    | .found _ => ⟨true, .ok true⟩

/-- The blob-type/mode mismatch test of `blob.get_blob_properties` (the
condition of its `RuntimeError`). -/
def blob_type_mismatch (mode : StorageModes) (bt : BlobType) : Bool :=
  (decide (mode = .Append) && decide (bt ≠ .AppendBlob)) ||
  (decide (mode = .Block) && decide (bt ≠ .BlockBlob)) ||
  (decide (mode = .Page) && decide (bt ≠ .PageBlob))

/-- `blob.get_blob_properties(client, container, prefix, mode)`. -/
def get_blob_properties (mode : StorageModes) (fetch : FetchOutcome) :
    RemoteResult (Option BlobProps) :=
  if mode = .File then
    ⟨false, .error ("cannot list Azure Blobs with incompatible mode: " ++ modeStr mode)⟩
  else
    match fetch with
    | .notFound => ⟨true, .ok none⟩
    | .otherError e => ⟨true, .error e⟩
    | .found props =>
      if blob_type_mismatch mode props.blob_type then
        ⟨true, .error ("existing blob type " ++ blobTypeStr props.blob_type ++
          " mismatch with mode " ++ modeStr mode)⟩
      else ⟨true, .ok (some props)⟩

/-- The service-side `name_starts_with` filter of
`container_client.list_blobs(name_starts_with=prefix if is_not_empty(prefix) else None)`:
an empty prefix is passed as `None`, meaning no filter. -/
def name_starts_with (pfx : String) (b : BlobProps) : Bool :=
  if pfx.isEmpty then true else pfx.data.isPrefixOf b.name.data

/-- The per-blob skip chain of `blob.list_blobs`: skip on blob-type/mode
disagreement (no filter for `Auto`), then skip when not recursive and the name
contains `'/'`. -/
def keeps_blob (mode : StorageModes) (recursive : Bool) (b : BlobProps) : Bool :=
  if mode = StorageModes.Append ∧ b.blob_type ≠ BlobType.AppendBlob then false
  else if mode = StorageModes.Block ∧ b.blob_type ≠ BlobType.BlockBlob then false
  else if mode = StorageModes.Page ∧ b.blob_type ≠ BlobType.PageBlob then false
  else if !recursive && b.name.data.contains '/' then false
  else true

/-- `blob.list_blobs(client, container, prefix, mode, recursive)`: `blobs` is the
container's listing (already restricted service-side by `name_starts_with`, which
we apply explicitly), `snapshot_props` the result of the property fetch performed
when the prefix is a snapshot reference. -/
def list_blobs (blobs : List BlobProps) (snapshot_props : BlobProps) (pfx : String)
    (mode : StorageModes) (recursive : Bool) : Except String (List BlobProps) :=
  if mode = StorageModes.File then .error "cannot list Azure Files from blob client"
  else if blob_is_snapshot pfx then .ok [snapshot_props]
  else .ok ((blobs.filter (name_starts_with pfx)).filter (keeps_blob mode recursive))

/-- The download call issued by `blob.get_blob_range(ase, offsets)`. -/
structure DownloadBlobCall where
  name : String
  offset : Nat
  length : Nat
deriving DecidableEq

/-- `blob.get_blob_range(ase, offsets)`: requests
`length = offsets.range_end - offsets.range_start + 1` bytes starting at
`offsets.range_start`. -/
def get_blob_range (ase : StorageEntity) (offsets : Offsets) : DownloadBlobCall :=
  { name := ase.name
    offset := offsets.range_start
    length := offsets.range_end - offsets.range_start + 1 }

/-! ## Container provisioner (`blob.create_container`) -/

/-- Outcome of the remote `create_container` call. -/
inductive CreateContainerOutcome where
  | success
  | alreadyExists
  | otherError (e : String)
deriving DecidableEq

/-- Result of `blob.create_container`: whether the create call was issued, the
updated registry, and the value returned or exception propagated. -/
structure CreateContainerResult where
  network_call : Bool
  registry : List String
  outcome : Except String Unit

/-- The registry key `ase.client.account_name + ':blob=' + ase.container`. -/
def container_key (account_name container : String) : String :=
  account_name ++ ":blob=" ++ container

/-- Python `set.add` on the registry. -/
def add_key (registry : List String) (key : String) : List String :=
  if key ∈ registry then registry else registry ++ [key]

/-- `blob.create_container(ase, containers_created)`: no call when creation is
not permitted or the key is memoized; `ResourceExistsError` swallowed; the key
added in the `finally` path in every case where the call is issued. -/
def create_container (ase : StorageEntity) (containers_created : List String)
    (remote : CreateContainerOutcome) : CreateContainerResult :=
  if !ase.can_create_containers then ⟨false, containers_created, .ok ()⟩
  else
    let key := container_key ase.client.account_name ase.container
    if key ∈ containers_created then ⟨false, containers_created, .ok ()⟩
    else
      match remote with
      | .success => ⟨true, add_key containers_created key, .ok ()⟩
      | .alreadyExists => ⟨true, add_key containers_created key, .ok ()⟩
      | .otherError e => ⟨true, add_key containers_created key, .error e⟩

/-! ## Block transfer engine (`block.py`) -/

/-- Modelled from the spec: `blobxfer.util.base64_decode_string` is not under
`src/`; the spec (§4.3, §6) only says the checksum is attached "in binary form",
so the decoded digest is kept as an injective constructor over the base64 text. -/
inductive Md5Bin where
  | decodeOf (b64 : String)
deriving DecidableEq

/-- The `md5 = blobxfer.util.base64_decode_string(md5) if md5 else None` step of
`block.create_blob` / `block.put_block_list` (Python truthiness: `None` and the
empty string both stay `None`). -/
def convert_md5 (md5 : Option String) : Option Md5Bin :=
  match md5 with
  | none => none
  | some s => if s.isEmpty then none else some (.decodeOf s)

/-- The `container.upload_blob` call issued by `block.create_blob`. -/
structure UploadBlobCall where
  name : String
  data : List Nat
  content_type : String
  content_md5 : Option Md5Bin
  cache_control : String
  metadata : List (String × String)
deriving DecidableEq

/-- `block.create_blob(ase, data, md5, metadata)`: issues an `upload_blob` call,
except that `if data is None: return b''` exits before the call. -/
def create_blob (ase : StorageEntity) (data : Option (List Nat))
    (md5 : Option String) (metadata : List (String × String)) : Option UploadBlobCall :=
  match data with
  | none => none
  | some d =>
    some { name := ase.name
           data := d
           content_type := ase.content_type
           content_md5 := convert_md5 md5
           cache_control := ase.cache_control
           metadata := metadata }

/-- The `blob.stage_block` call issued by `block.put_block`. -/
structure StageBlockCall where
  name : String
  data : List Nat
  block_id : String
deriving DecidableEq

/-- `block.put_block(ase, offsets, data)`: stages the chunk under
`_format_block_id(offsets.chunk_num)`, except that `if data is None: return b''`
exits before the call. -/
def put_block (ase : StorageEntity) (offsets : Offsets) (data : Option (List Nat)) :
    Option StageBlockCall :=
  match data with
  | none => none
  | some d =>
    some { name := ase.name
           data := d
           block_id := _format_block_id offsets.chunk_num }

/-- Modelled from the spec: `blobxfer.util.is_not_empty` is not under `src/`;
the spec phrases the test as "the source account has a shared key"
(Python truthiness of the key). -/
def is_not_empty (s : Option String) : Bool :=
  match s with
  | none => false
  | some s => !s.isEmpty

/-- The `blob.stage_block_from_url` call issued by `block.put_block_from_url`. -/
structure StageBlockFromUrlCall where
  name : String
  block_id : String
  source_url : String
  source_offset : Nat
  source_length : Nat
deriving DecidableEq

/-- Result of `block.put_block_from_url`: either the staging call it issues, or
the `raise NotImplementedError` taken on the shared-key path. -/
inductive PutBlockFromUrlResult where
  | staged (call : StageBlockFromUrlCall)
  | notImplementedError
deriving DecidableEq

/-- `block.put_block_from_url(src_ase, dst_ase, offsets)`: source URL taken
verbatim for arbitrary URLs; `raise NotImplementedError` when the source account
has a shared key (the token-minting code below the raise is unreachable);
otherwise the existing `sas_token` is reused and the URL composed as
`'https://{}/{}?{}'.format(primary_endpoint, path, sas)`.  The staged range is
`source_offset = range_start`, `source_length = range_end - range_start`. -/
def put_block_from_url (src_ase dst_ase : StorageEntity) (offsets : Offsets) :
    PutBlockFromUrlResult :=
  if src_ase.is_arbitrary_url then
    .staged { name := dst_ase.name
              block_id := _format_block_id offsets.chunk_num
              source_url := src_ase.path
              source_offset := offsets.range_start
              source_length := offsets.range_end - offsets.range_start }
  else if is_not_empty src_ase.client.account_key then
    .notImplementedError
  else
    .staged { name := dst_ase.name
              block_id := _format_block_id offsets.chunk_num
              source_url := "https://" ++ src_ase.client.primary_endpoint ++ "/"
                ++ src_ase.path ++ "?" ++ src_ase.client.sas_token
              source_offset := offsets.range_start
              source_length := offsets.range_end - offsets.range_start }

/-- The `blob.commit_block_list` call issued by `block.put_block_list`. -/
structure CommitBlockListCall where
  name : String
  block_list : List String
  content_type : String
  content_md5 : Option Md5Bin
  cache_control : String
  metadata : List (String × String)
deriving DecidableEq

/-- `block.put_block_list(ase, last_block_num, md5, metadata)`: commits the
block ids `_format_block_id(x)` for `x in range(0, last_block_num + 1)`, with
content settings and metadata attached here. -/
def put_block_list (ase : StorageEntity) (last_block_num : Nat)
    (md5 : Option String) (metadata : List (String × String)) : CommitBlockListCall :=
  { name := ase.name
    block_list := (List.range (last_block_num + 1)).map _format_block_id
    content_type := ase.content_type
    content_md5 := convert_md5 md5
    cache_control := ase.cache_control
    metadata := metadata }

/-! ## Page transfer engine (`page.py`) -/

/-- Modelled from the spec: `blobxfer.util.page_align_content_length` is not
under `src/`; the spec (§3 PageAlignment) rounds any requested page-blob size
up to the next multiple of 512 bytes. -/
def page_align_content_length (length : Nat) : Nat :=
  if length % 512 = 0 then length else length + (512 - length % 512)

/-- The `blob.create_page_blob` call issued by `page.create_blob`. -/
structure CreatePageBlobCall where
  name : String
  size : Nat
  content_type : String
deriving DecidableEq

/-- `page.create_blob(ase)`: declares size
`page_align_content_length(ase.size)`. -/
def page_create_blob (ase : StorageEntity) : CreatePageBlobCall :=
  { name := ase.name
    size := page_align_content_length ase.size
    content_type := ase.content_type }

/-- The `blob.upload_page` call issued by `page.put_page`. -/
structure UploadPageCall where
  name : String
  data : List Nat
  offset : Nat
  length : Nat
deriving DecidableEq

/-- `page.put_page(ase, page_start, page_end, data)`: absent data becomes
`b''`; writes `offset = page_start`, `length = page_end - page_start`
(no alignment applied). -/
def put_page (ase : StorageEntity) (page_start page_end : Nat)
    (data : Option (List Nat)) : UploadPageCall :=
  { name := ase.name
    data := data.getD []
    offset := page_start
    length := page_end - page_start }

/-- The `blob.resize_blob` call issued by `page.resize_blob`. -/
structure ResizeBlobCall where
  name : String
  size : Nat
deriving DecidableEq

/-- `page.resize_blob(ase, size)`: resizes to
`page_align_content_length(size)`. -/
def resize_blob (ase : StorageEntity) (size : Nat) : ResizeBlobCall :=
  { name := ase.name
    size := page_align_content_length size }

/-! ## Concrete entities used by witnesses and counterexamples -/

/-- A client with no shared key and an attached SAS token. -/
def sasClient : StorageClient :=
  { account_name := "sa"
    account_key := none
    sas_token := "sastoken"
    primary_endpoint := "sa.blob.core.windows.net" }

/-- A destination entity on `sasClient`. -/
def sampleEntity : StorageEntity :=
  { client := sasClient
    container := "cont"
    name := "blob"
    size := 1000
    mode := StorageModes.Block
    content_type := "application/octet-stream"
    cache_control := ""
    can_create_containers := true
    is_arbitrary_url := false
    path := "cont/blob" }

/-- A source entity that is an arbitrary URL. -/
def arbitraryUrlEntity : StorageEntity :=
  { sampleEntity with
    is_arbitrary_url := true
    path := "https://host/remote/path" }

/-- The azurite well-known shared key used by `test_put_block_from_url`. -/
def azuriteKey : String :=
  "Eby8vdM02xNOcqFlqUwJPLlmEtlCDXJ1OUzFT50uSRZ6IFsuFq2UVErCz4I6tq/K1SZFPTOtr/KBHBeksoGMGw=="

/-- A source entity whose account holds a shared key. -/
def azuriteKeyEntity : StorageEntity :=
  { sampleEntity with client := { sasClient with account_key := some azuriteKey } }

/-- An entity not permitted to create containers. -/
def noCreateEntity : StorageEntity :=
  { sampleEntity with can_create_containers := false }

/-! ## Helper lemmas for the claims -/

/-- The skip chain of `list_blobs`, as a single membership condition. -/
theorem keeps_blob_iff (mode : StorageModes) (recursive : Bool) (b : BlobProps) :
    keeps_blob mode recursive b = true ↔
      ((mode = StorageModes.Append → b.blob_type = BlobType.AppendBlob) ∧
       (mode = StorageModes.Block → b.blob_type = BlobType.BlockBlob) ∧
       (mode = StorageModes.Page → b.blob_type = BlobType.PageBlob) ∧
       (recursive = false → b.name.data.contains '/' = false)) := by
  obtain ⟨nm, bt⟩ := b
  cases hc : nm.data.contains '/' <;> cases mode <;> cases recursive <;> cases bt <;>
    simp_all [keeps_blob]

/-! ## Claims -/

/-- C1 (code bug): an absent `data` argument makes the block engine skip the
remote write entirely: `create_blob` returns before issuing any `upload_blob`
call and `put_block` returns before issuing any `stage_block` call, instead of
writing an empty payload. -/
theorem create_blob_put_block_drop_absent_data :
    (∀ ase md5 metadata, create_blob ase none md5 metadata = none) ∧
    (∀ ase offsets, put_block ase offsets none = none) :=
  ⟨fun _ _ _ => rfl, fun _ _ => rfl⟩

/-- C2 counterexample: at `Offsets ⟨0, 0, 0⟩` the local read-range helper
requests 1 byte while the server-side copy helper stages a 0-byte copy: the two
helpers do not agree on whether `range_end` is inclusive. -/
theorem range_helpers_disagree_cex :
    (get_blob_range sampleEntity ⟨0, 0, 0⟩).length = 1 ∧
    put_block_from_url arbitraryUrlEntity sampleEntity ⟨0, 0, 0⟩ =
      PutBlockFromUrlResult.staged ⟨"blob", "00000000", "https://host/remote/path", 0, 0⟩ ∧
    (1 : Nat) ≠ 0 :=
  ⟨rfl, by decide, by decide⟩

/-- C2 amended: for every `Offsets` with `range_start ≤ range_end`, whenever
`put_block_from_url` stages a block, `get_blob_range` requests exactly one byte
more than the server-side copy length: the read-range helper treats `range_end`
inclusively (`+ 1`) and the copy helper exclusively (no `+ 1`). -/
theorem get_blob_range_requests_one_more_byte
    (src dst : StorageEntity) (offsets : Offsets)
    (h : offsets.range_start ≤ offsets.range_end)
    (call : StageBlockFromUrlCall)
    (hc : put_block_from_url src dst offsets = PutBlockFromUrlResult.staged call) :
    (get_blob_range dst offsets).length = call.source_length + 1 := by
  unfold put_block_from_url at hc
  split at hc
  · injection hc with h1
    subst h1
    rfl
  · split at hc
    · exact absurd hc (by simp)
    · injection hc with h1
      subst h1
      rfl

theorem get_blob_range_requests_one_more_byte_witness :
    (0 : Nat) ≤ 5 ∧
    put_block_from_url arbitraryUrlEntity sampleEntity ⟨0, 0, 5⟩ =
      PutBlockFromUrlResult.staged
        (StageBlockFromUrlCall.mk "blob" "00000000" "https://host/remote/path" 0 5) ∧
    (get_blob_range sampleEntity ⟨0, 0, 5⟩).length =
      (StageBlockFromUrlCall.mk "blob" "00000000" "https://host/remote/path" 0 5).source_length
        + 1 :=
  ⟨by decide, by decide,
   get_blob_range_requests_one_more_byte arbitraryUrlEntity sampleEntity ⟨0, 0, 5⟩ (by decide)
     (StageBlockFromUrlCall.mk "blob" "00000000" "https://host/remote/path" 0 5) (by decide)⟩

/-- C3: for every `last_block_num` in `[0, 99999999]`, `put_block_list` commits
exactly `last_block_num + 1` block ids, the `i`-th being `_format_block_id i` —
an 8-character string of decimal digit characters whose value parses back to
`i` (zero-padded decimal), distinct for distinct chunk numbers — listed in
increasing chunk order `0..last_block_num`. -/
theorem put_block_list_commits_ordered_block_ids
    (ase : StorageEntity) (last_block_num : Nat) (md5 : Option String)
    (metadata : List (String × String)) (h : last_block_num ≤ 99999999) :
    ((put_block_list ase last_block_num md5 metadata).block_list.length
        = last_block_num + 1) ∧
    (∀ i (hi : i < (put_block_list ase last_block_num md5 metadata).block_list.length),
      (put_block_list ase last_block_num md5 metadata).block_list.get ⟨i, hi⟩
        = _format_block_id i) ∧
    (∀ i, i ≤ last_block_num → (_format_block_id i).length = 8 ∧
      (∀ c ∈ (_format_block_id i).data, c.isDigit = true) ∧
      parseBlockID (_format_block_id i) = i) ∧
    (∀ i j, i ≤ last_block_num → j ≤ last_block_num → i ≠ j →
      _format_block_id i ≠ _format_block_id j) := by
  refine ⟨by simp [put_block_list], ?_, ?_, ?_⟩
  · intro i hi
    simp [put_block_list]
  · intro i hi
    exact ⟨_format_block_id_length (by omega), _format_block_id_chars_digits i,
      parseBlockID_format i⟩
  · intro i j _ _ hne heq
    exact hne (_format_block_id_injective heq)

theorem put_block_list_commits_ordered_block_ids_witness :
    (3 : Nat) ≤ 99999999 ∧
    (((put_block_list sampleEntity 3 none []).block_list.length = 3 + 1) ∧
    (∀ i (hi : i < (put_block_list sampleEntity 3 none []).block_list.length),
      (put_block_list sampleEntity 3 none []).block_list.get ⟨i, hi⟩
        = _format_block_id i) ∧
    (∀ i, i ≤ 3 → (_format_block_id i).length = 8 ∧
      (∀ c ∈ (_format_block_id i).data, c.isDigit = true) ∧
      parseBlockID (_format_block_id i) = i) ∧
    (∀ i j, i ≤ 3 → j ≤ 3 → i ≠ j →
      _format_block_id i ≠ _format_block_id j)) :=
  ⟨by decide, put_block_list_commits_ordered_block_ids sampleEntity 3 none [] (by decide)⟩

/-- C4: `get_blob_properties` raises the unsupported-mode error with no network
call when the mode is File; returns an absent value (not an exception) on
not-found; and when the remote blob type disagrees with a Block, Append or Page
mode raises an error whose message names both the actual blob type and the
requested mode. -/
theorem get_blob_properties_error_handling
    (mode : StorageModes) (fetch : FetchOutcome) (props : BlobProps) :
    (mode = StorageModes.File →
      get_blob_properties mode fetch =
        ⟨false, .error ("cannot list Azure Blobs with incompatible mode: "
          ++ modeStr StorageModes.File)⟩) ∧
    (mode ≠ StorageModes.File →
      get_blob_properties mode FetchOutcome.notFound = ⟨true, .ok none⟩) ∧
    (blob_type_mismatch mode props.blob_type = true →
      get_blob_properties mode (FetchOutcome.found props) =
        ⟨true, .error ("existing blob type " ++ blobTypeStr props.blob_type ++
          " mismatch with mode " ++ modeStr mode)⟩) ∧
    (blob_type_mismatch mode props.blob_type = true ↔
      ((mode = StorageModes.Append ∧ props.blob_type ≠ BlobType.AppendBlob) ∨
       (mode = StorageModes.Block ∧ props.blob_type ≠ BlobType.BlockBlob) ∨
       (mode = StorageModes.Page ∧ props.blob_type ≠ BlobType.PageBlob))) := by
  refine ⟨?_, ?_, ?_, ?_⟩
  · rintro rfl
    rfl
  · intro hm
    simp [get_blob_properties, hm]
  · intro hmm
    have hm : mode ≠ StorageModes.File := by
      rintro rfl
      simp [blob_type_mismatch] at hmm
    simp [get_blob_properties, hm, hmm]
  · obtain ⟨nm, bt⟩ := props
    cases mode <;> cases bt <;> simp [blob_type_mismatch]

theorem get_blob_properties_error_handling_witness :
    (get_blob_properties StorageModes.File FetchOutcome.notFound =
      ⟨false, .error ("cannot list Azure Blobs with incompatible mode: "
        ++ modeStr StorageModes.File)⟩) ∧
    (get_blob_properties StorageModes.Block FetchOutcome.notFound = ⟨true, .ok none⟩) ∧
    (get_blob_properties StorageModes.Block (FetchOutcome.found ⟨"b", BlobType.PageBlob⟩) =
      ⟨true, .error ("existing blob type " ++ blobTypeStr BlobType.PageBlob ++
        " mismatch with mode " ++ modeStr StorageModes.Block)⟩) :=
  ⟨(get_blob_properties_error_handling StorageModes.File FetchOutcome.notFound
      ⟨"b", BlobType.PageBlob⟩).1 rfl,
   (get_blob_properties_error_handling StorageModes.Block FetchOutcome.notFound
      ⟨"b", BlobType.PageBlob⟩).2.1 (by decide),
   (get_blob_properties_error_handling StorageModes.Block FetchOutcome.notFound
      ⟨"b", BlobType.PageBlob⟩).2.2.1 (by decide)⟩

/-- C5 counterexample: with prefix `dir/` and the single blob `dir/a` — whose
name has no path separator after the prefix — the non-recursive listing yields
nothing, because the code tests `'/' in blob.name` over the whole name, not the
part after the prefix. -/
theorem list_blobs_separator_after_prefix_cex :
    name_starts_with "dir/" ⟨"dir/a", BlobType.BlockBlob⟩ = true ∧
    (("dir/a".data).drop ("dir/".data).length).contains '/' = false ∧
    list_blobs [⟨"dir/a", BlobType.BlockBlob⟩] ⟨"s", BlobType.BlockBlob⟩ "dir/"
      StorageModes.Auto false = .ok [] :=
  ⟨by decide, by decide, rfl⟩

/-- C5 amended: for a non-snapshot prefix and a non-File mode, `list_blobs`
yields exactly the listed blobs whose name passes the service-side prefix
filter (empty prefix ⇒ no filter), whose remote type matches the mode (no type
filter for Auto), and — when `recursive` is false — whose name contains no path
separator anywhere in the name (not merely after the prefix). -/
theorem list_blobs_membership_characterization
    (blobs : List BlobProps) (snap : BlobProps) (pfx : String)
    (mode : StorageModes) (recursive : Bool) (b : BlobProps)
    (hm : mode ≠ StorageModes.File) (hs : blob_is_snapshot pfx = false) :
    ∃ l, list_blobs blobs snap pfx mode recursive = .ok l ∧
      (b ∈ l ↔ b ∈ blobs ∧ name_starts_with pfx b = true ∧
        (mode = StorageModes.Append → b.blob_type = BlobType.AppendBlob) ∧
        (mode = StorageModes.Block → b.blob_type = BlobType.BlockBlob) ∧
        (mode = StorageModes.Page → b.blob_type = BlobType.PageBlob) ∧
        (recursive = false → b.name.data.contains '/' = false)) := by
  refine ⟨(blobs.filter (name_starts_with pfx)).filter (keeps_blob mode recursive),
    by simp [list_blobs, hm, hs], ?_⟩
  constructor
  · intro hb
    have h1 := List.mem_filter.mp hb
    have h2 := List.mem_filter.mp h1.1
    exact ⟨h2.1, h2.2, (keeps_blob_iff mode recursive b).mp h1.2⟩
  · rintro ⟨hb, hst, hA, hB, hC, hD⟩
    exact List.mem_filter.mpr ⟨List.mem_filter.mpr ⟨hb, hst⟩,
      (keeps_blob_iff mode recursive b).mpr ⟨hA, hB, hC, hD⟩⟩

theorem list_blobs_membership_characterization_witness :
    StorageModes.Auto ≠ StorageModes.File ∧
    blob_is_snapshot "" = false ∧
    (∃ l, list_blobs [⟨"dir/a", BlobType.BlockBlob⟩, ⟨"b", BlobType.BlockBlob⟩]
        ⟨"s", BlobType.BlockBlob⟩ "" StorageModes.Auto false = .ok l ∧
      ((⟨"b", BlobType.BlockBlob⟩ : BlobProps) ∈ l ↔
        (⟨"b", BlobType.BlockBlob⟩ : BlobProps) ∈
          [(⟨"dir/a", BlobType.BlockBlob⟩ : BlobProps), ⟨"b", BlobType.BlockBlob⟩] ∧
        name_starts_with "" ⟨"b", BlobType.BlockBlob⟩ = true ∧
        (StorageModes.Auto = StorageModes.Append →
          (⟨"b", BlobType.BlockBlob⟩ : BlobProps).blob_type = BlobType.AppendBlob) ∧
        (StorageModes.Auto = StorageModes.Block →
          (⟨"b", BlobType.BlockBlob⟩ : BlobProps).blob_type = BlobType.BlockBlob) ∧
        (StorageModes.Auto = StorageModes.Page →
          (⟨"b", BlobType.BlockBlob⟩ : BlobProps).blob_type = BlobType.PageBlob) ∧
        (false = false →
          (⟨"b", BlobType.BlockBlob⟩ : BlobProps).name.data.contains '/' = false))) :=
  ⟨by decide, by decide,
   list_blobs_membership_characterization
     [⟨"dir/a", BlobType.BlockBlob⟩, ⟨"b", BlobType.BlockBlob⟩] ⟨"s", BlobType.BlockBlob⟩
     "" StorageModes.Auto false ⟨"b", BlobType.BlockBlob⟩ (by decide) (by decide)⟩

/-- C6: `create_container` makes no network call and leaves the registry
unchanged when creation is not permitted or the key is already memoized; an
already-exists response is swallowed as success; whenever the create call is
issued the key is added in the `finally` path (on success, already-exists and
propagated errors alike); and a repeated call for the same container never
re-issues the network call. -/
theorem create_container_idempotent_registry
    (ase : StorageEntity) (reg : List String) (remote remote' : CreateContainerOutcome) :
    (ase.can_create_containers = false →
      create_container ase reg remote = ⟨false, reg, .ok ()⟩) ∧
    (container_key ase.client.account_name ase.container ∈ reg →
      create_container ase reg remote = ⟨false, reg, .ok ()⟩) ∧
    (ase.can_create_containers = true →
      container_key ase.client.account_name ase.container ∉ reg →
      ((create_container ase reg remote).network_call = true ∧
       container_key ase.client.account_name ase.container
         ∈ (create_container ase reg remote).registry ∧
       create_container ase reg CreateContainerOutcome.alreadyExists =
         ⟨true, add_key reg (container_key ase.client.account_name ase.container),
          .ok ()⟩)) ∧
    (create_container ase (create_container ase reg remote).registry remote').network_call
      = false := by
  refine ⟨?_, ?_, ?_, ?_⟩
  · intro h
    simp [create_container, h]
  · intro h
    by_cases hc : ase.can_create_containers <;> simp [create_container, hc, h]
  · intro hc hk
    refine ⟨?_, ?_, ?_⟩ <;> cases remote <;> simp [create_container, hc, hk, add_key]
  · by_cases hc : ase.can_create_containers
    · by_cases hk : container_key ase.client.account_name ase.container ∈ reg
      · simp [create_container, hc, hk]
      · cases remote <;> simp [create_container, hc, hk, add_key]
    · simp [create_container, hc]

theorem create_container_idempotent_registry_witness :
    (noCreateEntity.can_create_containers = false ∧
     create_container noCreateEntity [] CreateContainerOutcome.success =
       ⟨false, [], .ok ()⟩) ∧
    (container_key sampleEntity.client.account_name sampleEntity.container
       ∈ [container_key "sa" "cont"] ∧
     create_container sampleEntity [container_key "sa" "cont"]
       CreateContainerOutcome.success = ⟨false, [container_key "sa" "cont"], .ok ()⟩) ∧
    (create_container sampleEntity [] CreateContainerOutcome.alreadyExists =
      ⟨true, add_key [] (container_key sampleEntity.client.account_name
        sampleEntity.container), .ok ()⟩) ∧
    ((create_container sampleEntity
        (create_container sampleEntity [] CreateContainerOutcome.alreadyExists).registry
        CreateContainerOutcome.success).network_call = false) :=
  ⟨⟨rfl, (create_container_idempotent_registry noCreateEntity []
      CreateContainerOutcome.success CreateContainerOutcome.success).1 rfl⟩,
   ⟨by decide, (create_container_idempotent_registry sampleEntity [container_key "sa" "cont"]
      CreateContainerOutcome.success CreateContainerOutcome.success).2.1 (by decide)⟩,
   ((create_container_idempotent_registry sampleEntity []
      CreateContainerOutcome.alreadyExists CreateContainerOutcome.success).2.2.1 rfl
      (by decide)).2.2,
   (create_container_idempotent_registry sampleEntity []
      CreateContainerOutcome.alreadyExists CreateContainerOutcome.success).2.2.2⟩

/-- C7 (code bug): source URL resolution in `put_block_from_url` — an arbitrary
URL is used verbatim, and without a shared key the existing SAS token is reused
in a URL composed from the primary endpoint, the path and the token; but a
source account holding a shared key (here the azurite well-known key, as in
`test_put_block_from_url`) hits `raise NotImplementedError` instead of minting
the 7-day read-only delegation token, whose minting code is unreachable. -/
theorem put_block_from_url_shared_key_not_implemented :
    put_block_from_url arbitraryUrlEntity sampleEntity ⟨0, 0, 1⟩ =
      PutBlockFromUrlResult.staged ⟨"blob", "00000000", "https://host/remote/path", 0, 1⟩ ∧
    put_block_from_url sampleEntity sampleEntity ⟨0, 0, 1⟩ =
      PutBlockFromUrlResult.staged
        ⟨"blob", "00000000", "https://sa.blob.core.windows.net/cont/blob?sastoken", 0, 1⟩ ∧
    put_block_from_url azuriteKeyEntity sampleEntity ⟨0, 0, 1⟩ =
      PutBlockFromUrlResult.notImplementedError :=
  ⟨by decide, by decide, rfl⟩

/-- C8 counterexample: a logical size of 1000 is rounded to 1024 by the page
engine's `create_blob` and `resize_blob`, but `put_page` sends the raw length
1000: the rounding does not apply to every page-blob write length. -/
theorem put_page_length_not_rounded_cex :
    (page_create_blob sampleEntity).size = 1024 ∧
    (resize_blob sampleEntity 1000).size = 1024 ∧
    (put_page sampleEntity 0 1000 none).length = 1000 ∧
    page_align_content_length 1000 = 1024 ∧
    (1000 : Nat) ≠ 1024 :=
  ⟨rfl, rfl, rfl, rfl, by decide⟩

/-- C8 amended: the page engine rounds the size sent to the remote store up to
the next multiple of 512 in `create_blob` and `resize_blob` (the least 512
multiple at least the logical size, so 1000 yields 1024), but `put_page` sends
the raw write length `page_end - page_start` with no rounding: alignment of
page ranges is the caller's responsibility. -/
theorem page_engine_alignment
    (ase : StorageEntity) (size page_start page_end : Nat) (data : Option (List Nat)) :
    (page_create_blob ase).size = page_align_content_length ase.size ∧
    (resize_blob ase size).size = page_align_content_length size ∧
    512 ∣ page_align_content_length size ∧
    size ≤ page_align_content_length size ∧
    page_align_content_length size < size + 512 ∧
    (put_page ase page_start page_end data).length = page_end - page_start := by
  refine ⟨rfl, rfl, ?_, ?_, ?_, rfl⟩ <;>
    (unfold page_align_content_length; split <;> omega)

/-- C9: `check_if_single_blob` returns true immediately, without a property
fetch, on a snapshot prefix; otherwise it fetches once and returns true iff the
object exists, false only on the not-found signal, every other error
propagating. -/
theorem check_if_single_blob_spec
    (pfx : String) (fetch : FetchOutcome) (props : BlobProps) (e : String) :
    (blob_is_snapshot pfx = true →
      check_if_single_blob pfx fetch = ⟨false, .ok true⟩) ∧
    (blob_is_snapshot pfx = false →
      (check_if_single_blob pfx (FetchOutcome.found props) = ⟨true, .ok true⟩ ∧
       check_if_single_blob pfx FetchOutcome.notFound = ⟨true, .ok false⟩ ∧
       check_if_single_blob pfx (FetchOutcome.otherError e) = ⟨true, .error e⟩)) := by
  constructor
  · intro h
    simp [check_if_single_blob, h]
  · intro h
    refine ⟨?_, ?_, ?_⟩ <;> simp [check_if_single_blob, h]

theorem check_if_single_blob_spec_witness :
    blob_is_snapshot "a?snapshot=2017-02-23T22:21:14.8121864Z" = true ∧
    check_if_single_blob "a?snapshot=2017-02-23T22:21:14.8121864Z" FetchOutcome.notFound =
      ⟨false, .ok true⟩ ∧
    blob_is_snapshot "b/c" = false ∧
    check_if_single_blob "b/c" FetchOutcome.notFound = ⟨true, .ok false⟩ :=
  ⟨by decide,
   (check_if_single_blob_spec "a?snapshot=2017-02-23T22:21:14.8121864Z"
      FetchOutcome.notFound ⟨"b", BlobType.BlockBlob⟩ "e").1 (by decide),
   by decide,
   ((check_if_single_blob_spec "b/c" FetchOutcome.notFound
      ⟨"b", BlobType.BlockBlob⟩ "e").2 (by decide)).2.1⟩

/-- C10: with mode Auto, `get_blob_properties` never raises a type-mismatch
error: every existing blob's properties are returned unchecked, whatever the
actual remote blob type. -/
theorem get_blob_properties_auto_unchecked (props : BlobProps) :
    get_blob_properties StorageModes.Auto (FetchOutcome.found props) =
      ⟨true, .ok (some props)⟩ := rfl

end Blobxfer
